import Mathlib

/-!
Shallow embedding of `AviaxMusic/platforms/Youtube.py`.

Strings are modelled as `List Char`.  Filesystem, cookie selection and the
yt-dlp extraction service are modelled as explicit parameters (a `CallEnv`
per external call); logging is made observable through `warned` / `errors`
fields of each operation's output record.  Python exceptions raised by the
extraction service are modelled by `Except`.
-/

namespace AviaxMusic

abbrev Str := List Char

/-- Coerce a Lean string literal to the `List Char` representation. -/
def strL (x : String) : Str := x.toList

/-- Python `str.split(sep)` for a one-character separator, returned as
(head piece, remaining pieces) so the result is never empty. -/
def splitChar (sep : Char) : Str → Str × List Str
  | [] => ([], [])
  | c :: rest =>
    let r := splitChar sep rest
    if c = sep then ([], r.1 :: r.2) else (c :: r.1, r.2)

/-- Python `str.split("v=")` (the two-character separator used by the manual
fallback of `download_with_yt_dlp`), as (head piece, remaining pieces). -/
def splitVEq : Str → Str × List Str
  | [] => ([], [])
  | 'v' :: '=' :: rest =>
    let r := splitVEq rest
    ([], r.1 :: r.2)
  | c :: rest =>
    let r := splitVEq rest
    (c :: r.1, r.2)

/-- Python `link.split(sep)` as a (necessarily non-empty) list, one-char sep. -/
def splitCharL (sep : Char) (l : Str) : List Str :=
  (splitChar sep l).1 :: (splitChar sep l).2

/-- Python `link.split("v=")` as a (necessarily non-empty) list. -/
def splitVEqL (l : Str) : List Str :=
  (splitVEq l).1 :: (splitVEq l).2

/-- Manual fallback of `download_with_yt_dlp`:
`link.split('v=')[-1].split('&')[0]`. -/
def manualFallback (link : Str) : Str :=
  (splitCharL '&' ((splitVEqL link).getLastD [])).headD []

/-- The manual fallback with Python's indexing modelled as partial
(`[-1]` / `[0]` raise on an empty list): `none` would mean an IndexError. -/
def manualFallbackChecked (link : Str) : Option Str :=
  ((splitVEqL link).getLast?).bind fun t => (splitCharL '&' t).head?

/-- One attempt of `re.search` for a pattern of the shape
`<literal>([^<bad>]+)` anchored at the current position: the literal must be
a prefix here, and the capture is the maximal non-empty run of characters
different from `bad` that follows it. -/
def tryAt (lit : Str) (bad : Char) (l : Str) : Option Str :=
  match lit.isPrefixOf l with
  | false => none
  | true =>
    match (l.drop lit.length).takeWhile (fun c => c ≠ bad) with
    | [] => none
    | c :: cs => some (c :: cs)

/-- `re.search` for a pattern `<literal>([^<bad>]+)`: scan left to right and
return the capture of the leftmost position where the pattern matches. -/
def reSearch (lit : Str) (bad : Char) : Str → Option Str
  | [] => none
  | c :: rest =>
    match tryAt lit bad (c :: rest) with
    | some r => some r
    | none => reSearch lit bad rest

def patWatch : Str := strL "youtube.com/watch?v="
def patShort : Str := strL "youtu.be/"
def patEmbed : Str := strL "youtube.com/embed/"
def patV : Str := strL "youtube.com/v/"

/-- `extract_video_id`: try the four patterns in their fixed order and return
the first capture, `None` if no pattern matches. -/
def extract_video_id (url : Str) : Option Str :=
  match reSearch patWatch '&' url with
  | some r => some r
  | none =>
    match reSearch patShort '?' url with
    | some r => some r
    | none =>
      match reSearch patEmbed '/' url with
      | some r => some r
      | none => reSearch patV '/' url

/-- `extract_video_id(link) or link.split('v=')[-1].split('&')[0]`
(Python `or`: an empty string is falsy and also falls back). -/
def videoIdOf (link : Str) : Str :=
  match extract_video_id link with
  | some v => if v.isEmpty then manualFallback link else v
  | none => manualFallback link

/-- yt-dlp post-processor entry (the `FFmpegExtractAudio` dict). -/
structure PostProcessor where
  key : Str
  preferredcodec : Str
  preferredquality : Str
deriving DecidableEq

/-- The mp3 audio-extraction post-processor configured for audio downloads. -/
def mp3PP : PostProcessor :=
  ⟨strL "FFmpegExtractAudio", strL "mp3", strL "192"⟩

/-- The `ydl_opts` dictionaries built by the module, as a closed structure of
the keys this module ever sets. -/
structure YdlOpts where
  format : Option Str := none
  outtmpl : Option Str := none
  quiet : Bool := false
  no_warnings : Bool := false
  geo_bypass : Bool := false
  nocheckcertificate : Bool := false
  cookiefile : Option Str := none
  postprocessors : List PostProcessor := []
  extract_flat : Bool := false
deriving DecidableEq

/-- One entry of the extractor's `info['formats']` list (fields read by the
module; an absent key is `none`). -/
structure Fmt where
  format : Option Str := none
  filesize : Option Int := none
  format_id : Option Str := none
  ext : Option Str := none
  format_note : Option Str := none
deriving DecidableEq

/-- One entry of a flat playlist listing; `id = none` models an entry dict
without an `'id'` key. -/
structure Entry where
  id : Option Str := none
deriving DecidableEq

/-- The dictionary returned by `ydl.extract_info` (fields read by the
module; an absent key is `none` / the empty list). -/
structure Info where
  url : Option Str := none
  ext : Option Str := none
  formats : List Fmt := []
  entries : List Entry := []
deriving DecidableEq

/-- The external context of one call into this module: the cookie file the
random credential selector produced, the yt-dlp extraction service (an
`Except.error` models a raised exception), and the filesystem existence
checks before and after the extraction call. -/
structure CallEnv where
  cookieFile : Option Str
  extract : YdlOpts → Str → Except Str Info
  existsBefore : Str → Bool
  existsAfter : Str → Bool

/-- `os.path.join(DOWNLOAD_FOLDER, f"{video_id}.{ext}")`. -/
def dlPath (vid ext : Str) : Str :=
  strL "downloads/" ++ vid ++ strL "." ++ ext

/-- Python truthiness of an optional string (`None` and `""` are falsy). -/
def truthy : Option Str → Bool
  | none => false
  | some t => !t.isEmpty

/-- The message logged when a download raises: `f"Failed to download {media_type}: {e}"`. -/
def dlErrMsg (mediaType e : Str) : Str :=
  strL "Failed to download " ++ mediaType ++ strL ": " ++ e

/-- The `ydl_opts` built by `download_with_yt_dlp` (lines 76-99 of the
source): default format expression and id-derived output template, cookies,
the mp3 post-processor for audio, and the format/outtmpl override applied
when an explicit format id and title are both supplied. -/
def dlOpts (cookieFile : Option Str) (mediaType vid : Str)
    (format_id title : Option Str) : YdlOpts :=
  let base : YdlOpts :=
    { format := some (if mediaType = strL "audio" then strL "bestaudio/best"
        else strL "bestvideo[height<=720]+bestaudio"),
      outtmpl := some (strL "downloads/" ++ vid ++ strL ".%(ext)s"),
      quiet := true, no_warnings := true, geo_bypass := true,
      nocheckcertificate := true,
      cookiefile := cookieFile,
      postprocessors := if mediaType = strL "audio" then [mp3PP] else [] }
  if truthy format_id && truthy title then
    { base with
      format := format_id,
      outtmpl := some (strL "downloads/" ++ title.getD [] ++
        (if mediaType = strL "audio" then strL ".%(ext)s" else [])) }
  else base

/-- Observable outcome of `download_with_yt_dlp`: the returned value, the
yt-dlp invocations performed (with their options), whether the missing-cookie
warning was logged, the error messages logged, and the path probed by the
pre-download cache-existence check. -/
structure DlOut where
  ret : Option Str
  calls : List YdlOpts
  warned : Bool
  errors : List Str
  precheckPath : Str
deriving DecidableEq

/-- `download_with_yt_dlp` (source lines 56-112). -/
def download_with_yt_dlp (env : CallEnv) (link mediaType : Str)
    (format_id title : Option Str) : DlOut :=
  let warned := env.cookieFile.isNone
  let vid := videoIdOf link
  let ext0 := if mediaType = strL "audio" then strL "mp3" else strL "mp4"
  let fp0 := dlPath vid ext0
  if env.existsBefore fp0 then
    ⟨some fp0, [], warned, [], fp0⟩
  else
    let opts := dlOpts env.cookieFile mediaType vid format_id title
    match env.extract opts link with
    | Except.error e => ⟨none, [opts], warned, [dlErrMsg mediaType e], fp0⟩
    | Except.ok info =>
      match (if mediaType = strL "audio" then some (strL "mp3") else info.ext) with
      | none =>
        ⟨none, [opts], warned, [dlErrMsg mediaType (strL "'ext'")], fp0⟩
      | some ext2 =>
        let fp2 := dlPath vid ext2
        if env.existsAfter fp2 then ⟨some fp2, [opts], warned, [], fp0⟩
        else ⟨none, [opts], warned, [], fp0⟩

/-- Observable outcome of `get_stream_url`. -/
structure StreamOut where
  ret : Option Str
  calls : List YdlOpts
  warned : Bool
  errors : List Str
deriving DecidableEq

/-- The `ydl_opts` built by `get_stream_url` (source lines 120-129). -/
def streamOpts (cookieFile : Option Str) (mediaType : Str) : YdlOpts :=
  { format := some (if mediaType = strL "audio" then strL "bestaudio/best"
      else strL "bestvideo[height<=720]+bestaudio"),
    quiet := true, no_warnings := true, geo_bypass := true,
    nocheckcertificate := true,
    cookiefile := cookieFile }

/-- `get_stream_url` (source lines 114-137). -/
def get_stream_url (env : CallEnv) (link mediaType : Str) : StreamOut :=
  let warned := env.cookieFile.isNone
  let opts := streamOpts env.cookieFile mediaType
  match env.extract opts link with
  | Except.error e =>
    ⟨none, [opts], warned, [strL "Failed to get stream URL: " ++ e]⟩
  | Except.ok info => ⟨info.url, [opts], warned, []⟩

/-- `download_song` (source lines 139-141). -/
def download_song (env : CallEnv) (link : Str) : DlOut :=
  download_with_yt_dlp env link (strL "audio") none none

/-- `download_video` (source lines 143-145). -/
def download_video (env : CallEnv) (link : Str) : DlOut :=
  download_with_yt_dlp env link (strL "video") none none

/-- Observable outcome of `check_file_size`. -/
structure SizeOut where
  ret : Option Int
  calls : List YdlOpts
  warned : Bool
  errors : List Str
deriving DecidableEq

/-- The `ydl_opts` built by `check_file_size`. -/
def sizeOpts (cf : Str) : YdlOpts :=
  { quiet := true, no_warnings := true, cookiefile := some cf }

/-- `check_file_size` (source lines 147-168): short-circuits to `None` with a
logged warning when no cookie file is available; otherwise sums
`f.get('filesize', 0)` over the reported formats. -/
def check_file_size (env : CallEnv) (link : Str) : SizeOut :=
  match env.cookieFile with
  | none => ⟨none, [], true, []⟩
  | some cf =>
    let opts := sizeOpts cf
    match env.extract opts link with
    | Except.error e =>
      ⟨none, [opts], false, [strL "Failed to check file size: " ++ e]⟩
    | Except.ok info =>
      ⟨some (info.formats.foldl (fun a f => a + f.filesize.getD 0) 0),
        [opts], false, []⟩

/-- `self.base` of `YouTubeAPI`. -/
def base : Str := strL "https://www.youtube.com/watch?v="

/-- `self.listbase` of `YouTubeAPI`. -/
def listbase : Str := strL "https://youtube.com/playlist?list="

/-- `if "&" in link: link = link.split("&")[0]`. -/
def ampStrip (l : Str) : Str :=
  if l.contains '&' then (splitCharL '&' l).headD [] else l

/-- Python `str(x)` on an optional string: `None` prints as `"None"`. -/
def pyStr : Option Str → Str
  | none => strL "None"
  | some t => t

/-- Decimal digits to a natural number (Python `int` on a digit string). -/
def parseNatDigits (t : Str) : Nat :=
  t.foldl (fun a c => a * 10 + (c.toNat - 48)) 0

/-- Modelled from the spec: `time_to_seconds` is called by
`YouTubeAPI.details` but imported from a part of the repository that is not
in the provided source.  Per the spec it parses a colon-delimited string
(seconds, or minutes:seconds, or hours:minutes:seconds, or
days:hours:minutes:seconds) into total seconds, handling 1-4 segments. -/
def time_to_seconds (t : Str) : Nat :=
  let segs := (splitCharL ':' t).map parseNatDigits
  ((segs.reverse).zip [1, 60, 3600, 86400]).foldl (fun a p => a + p.1 * p.2) 0

/-- The `duration_sec` computation of `YouTubeAPI.details` (source line 213):
`0 if str(duration_min) == "None" else int(time_to_seconds(duration_min))`. -/
def details_duration_sec (duration_min : Option Str) : Nat :=
  if pyStr duration_min = strL "None" then 0
  else time_to_seconds (pyStr duration_min)

/-- The single search-service record consumed by `YouTubeAPI.details`
(fields read by the module; `duration` may be null). -/
structure SearchResult where
  title : Str
  duration : Option Str
  thumburl : Str
  id : Str
deriving DecidableEq

/-- `YouTubeAPI.details` (source lines 200-215), as a function of the search
result record the search service returned for the normalized link. -/
def details (r : SearchResult) : Str × Option Str × Nat × Str × Str :=
  (r.title, r.duration, details_duration_sec r.duration,
    (splitCharL '?' r.thumburl).headD [], r.id)

/-- Observable outcome of `YouTubeAPI.video`: the returned pair, the stream
probe's outcome, and the fallback download's outcome when one was made. -/
structure VideoOut where
  result : Nat × Str
  stream : StreamOut
  dl : Option DlOut
deriving DecidableEq

/-- `YouTubeAPI.video` (source lines 217-230): stream probe first, download
fallback, `(0, "Failed to download video")` when both fail. -/
def video (streamEnv dlEnv : CallEnv) (link0 : Str) (videoid : Bool) :
    VideoOut :=
  let link := ampStrip (if videoid then base ++ link0 else link0)
  let st := get_stream_url streamEnv link (strL "video")
  match st.ret with
  | some u => ⟨(1, u), st, none⟩
  | none =>
    let d := download_video dlEnv link
    match d.ret with
    | some p => ⟨(1, p), st, some d⟩
    | none => ⟨(0, strL "Failed to download video"), st, some d⟩

/-- Python `l[:n]` for an `int` bound: a negative bound counts from the end. -/
def pySliceTo (n : Int) (l : List α) : List α :=
  if 0 ≤ n then l.take n.toNat else l.take (l.length - (-n).toNat)

/-- Observable outcome of `YouTubeAPI.playlist`. -/
structure PlaylistOut where
  result : List Str
  calls : List YdlOpts
  warned : Bool
  errors : List Str
deriving DecidableEq

/-- The `ydl_opts` built by `YouTubeAPI.playlist` (flat listing). -/
def playlistOpts (cf : Str) : YdlOpts :=
  { quiet := true, no_warnings := true, extract_flat := true,
    cookiefile := some cf }

/-- `YouTubeAPI.playlist` (source lines 232-256): empty list without any
extraction call (and without a logged warning) when no cookie file exists;
otherwise `[entry['id'] for entry in entries[:limit] if 'id' in entry]`,
and an empty list on an extraction exception. -/
def playlist (env : CallEnv) (link0 : Str) (limit : Int) (user_id : Int)
    (videoid : Bool) : PlaylistOut :=
  let link := ampStrip (if videoid then listbase ++ link0 else link0)
  match env.cookieFile with
  | none => ⟨[], [], false, []⟩
  | some cf =>
    let opts := playlistOpts cf
    match env.extract opts link with
    | Except.error e =>
      ⟨[], [opts], false, [strL "Failed to get playlist: " ++ e]⟩
    | Except.ok info =>
      ⟨(pySliceTo limit info.entries).filterMap Entry.id, [opts], false, []⟩

/-- One entry of the list returned by `YouTubeAPI.formats`. -/
structure OutFmt where
  format : Option Str
  filesize : Option Int
  format_id : Option Str
  ext : Option Str
  format_note : Option Str
  yturl : Str
deriving DecidableEq

/-- Lower-case a string (Python `str.lower()` on ASCII labels). -/
def toLowerStr (t : Str) : Str := t.map Char.toLower

/-- Python's substring test `needle in hay`: the needle occurs contiguously
somewhere in the haystack. -/
def strContainsSub (needle : Str) : Str → Bool
  | [] => needle.isEmpty
  | c :: rest => needle.isPrefixOf (c :: rest) || strContainsSub needle rest

/-- The filter of `YouTubeAPI.formats`:
`not "dash" in str(f.get("format", "")).lower()`. -/
def dashFilter (f : Fmt) : Bool :=
  !(strContainsSub (strL "dash") (toLowerStr (f.format.getD [])))

/-- The projection of one kept format entry onto the returned dict. -/
def projectFmt (link : Str) (f : Fmt) : OutFmt :=
  ⟨f.format, f.filesize, f.format_id, f.ext, f.format_note, link⟩

/-- The format-collecting loop of `YouTubeAPI.formats` (source lines 295-308). -/
def formatsLoop (link : Str) : List Fmt → List OutFmt
  | [] => []
  | f :: fs =>
    if dashFilter f then projectFmt link f :: formatsLoop link fs
    else formatsLoop link fs

/-- Observable outcome of `YouTubeAPI.formats`. -/
structure FormatsOut where
  result : List OutFmt × Str
  calls : List YdlOpts
  warned : Bool
  errors : List Str
deriving DecidableEq

/-- The `ydl_opts` built by `YouTubeAPI.formats`. -/
def formatsOpts (cf : Str) : YdlOpts :=
  { quiet := true, no_warnings := true, cookiefile := some cf }

/-- `YouTubeAPI.formats` (source lines 276-312): `([], link)` without any
extraction call (and without a logged warning) when no cookie file exists;
otherwise the non-DASH format entries projected onto their reported fields,
and `([], link)` on an extraction exception. -/
def formats (env : CallEnv) (link0 : Str) (videoid : Bool) : FormatsOut :=
  let link := ampStrip (if videoid then base ++ link0 else link0)
  match env.cookieFile with
  | none => ⟨([], link), [], false, []⟩
  | some cf =>
    let opts := formatsOpts cf
    match env.extract opts link with
    | Except.error e =>
      ⟨([], link), [opts], false, [strL "Failed to get formats: " ++ e]⟩
    | Except.ok info =>
      ⟨(formatsLoop link info.formats, link), [opts], false, []⟩

/-- Observable outcome of `YouTubeAPI.download`: the returned pair, the
stream probe when one was made, the media kind passed to
`download_with_yt_dlp` when it was invoked, and that invocation's outcome. -/
structure DownloadOut where
  result : Option Str × Bool
  stream : Option StreamOut
  dlMedia : Option Str
  dl : Option DlOut
deriving DecidableEq

/-- `YouTubeAPI.download` (source lines 336-369).  `mystic` (a chat message
used only for call-site bookkeeping) is omitted: the source never reads it. -/
def download (streamEnv dlEnv : CallEnv) (link0 : Str)
    (videob : Bool) (videoid : Bool) (songaudio songvideo : Bool)
    (format_id title : Option Str) : DownloadOut :=
  let link := if videoid then base ++ link0 else link0
  if songvideo || songaudio then
    let d := download_with_yt_dlp dlEnv link (strL "audio") format_id title
    ⟨(match d.ret with | some p => (some p, true) | none => (none, false)),
      none, some (strL "audio"), some d⟩
  else if videob then
    let st := get_stream_url streamEnv link (strL "video")
    match st.ret with
    | some u => ⟨(some u, false), some st, none, none⟩
    | none =>
      let d := download_with_yt_dlp dlEnv link (strL "video") format_id title
      ⟨(match d.ret with | some p => (some p, true) | none => (none, false)),
        some st, some (strL "video"), some d⟩
  else
    let d := download_with_yt_dlp dlEnv link (strL "audio") format_id title
    ⟨(match d.ret with | some p => (some p, true) | none => (none, false)),
      none, some (strL "audio"), some d⟩

/-! ## Concrete environments used by closed instances -/

/-- No cookies, extraction always raising, empty filesystem. -/
def envFailC1 : CallEnv :=
  ⟨none, fun _ _ => Except.error (strL "boom"), fun _ => false, fun _ => false⟩

/-- Extraction resolving a direct stream URL. -/
def envStreamC1 : CallEnv :=
  ⟨some (strL "c.txt"), fun _ _ => Except.ok { url := some (strL "http://u") },
    fun _ => false, fun _ => false⟩

/-- A filesystem holding exactly `downloads/abc.webm` — the file produced
and returned by a previous successful video download whose extractor
reported the `webm` container — with the extractor still reporting `webm`. -/
def envC2 : CallEnv :=
  ⟨some (strL "c.txt"), fun _ _ => Except.ok { ext := some (strL "webm") },
    fun q => q == dlPath (strL "abc") (strL "webm"),
    fun q => q == dlPath (strL "abc") (strL "webm")⟩

/-- A filesystem holding exactly the cached `downloads/abc.mp3`. -/
def envC2hit : CallEnv :=
  ⟨some (strL "c.txt"), fun _ _ => Except.error (strL "x"),
    fun q => q == dlPath (strL "abc") (strL "mp3"), fun _ => false⟩

/-- Extraction always raising, with a cookie present. -/
def envErrC5 : CallEnv :=
  ⟨some (strL "c.txt"), fun _ _ => Except.error (strL "boom"),
    fun _ => false, fun _ => false⟩

/-- The credential selector found no cookie file. -/
def envNoCookie : CallEnv :=
  ⟨none, fun _ _ => Except.error (strL "x"), fun _ => false, fun _ => false⟩

/-- A DASH format entry (upper-case label, to exercise case-insensitivity). -/
def fmtDash : Fmt :=
  { format := some (strL "sb0 - 48x27 (storyboard, DASH)"),
    format_id := some (strL "sb0") }

/-- A regular (kept) format entry. -/
def fmtGood : Fmt :=
  { format := some (strL "18 - 640x360 (360p)"), filesize := some 1000,
    format_id := some (strL "18"), ext := some (strL "mp4") }

/-- Extraction reporting one DASH and one regular format. -/
def envFmts : CallEnv :=
  ⟨some (strL "c.txt"), fun _ _ => Except.ok { formats := [fmtDash, fmtGood] },
    fun _ => false, fun _ => false⟩

/-- Extraction reporting a two-entry flat playlist. -/
def envPl : CallEnv :=
  ⟨some (strL "c.txt"),
    fun _ _ => Except.ok { entries := [⟨some (strL "a")⟩, ⟨some (strL "b")⟩] },
    fun _ => false, fun _ => false⟩

/-- Extraction always raising, with a cookie present (download variants). -/
def envC9 : CallEnv :=
  ⟨some (strL "c.txt"), fun _ _ => Except.error (strL "x"),
    fun _ => false, fun _ => false⟩

/-- Extraction always raising, with a cookie present (song variants). -/
def envC10 : CallEnv :=
  ⟨some (strL "c.txt"), fun _ _ => Except.error (strL "x"),
    fun _ => false, fun _ => false⟩

/-! ## Helper lemmas -/

theorem isPrefixOf_self_append (a b : Str) : a.isPrefixOf (a ++ b) = true := by
  induction a with
  | nil => simp [List.isPrefixOf]
  | cons c t ih => simp [List.isPrefixOf, ih]

theorem reSearch_cons (lit : Str) (bad c : Char) (rest : Str) :
    reSearch lit bad (c :: rest)
      = match tryAt lit bad (c :: rest) with
        | some r => some r
        | none => reSearch lit bad rest := rfl

theorem reSearch_cons_none (lit : Str) (bad c : Char) (rest : Str)
    (h : tryAt lit bad (c :: rest) = none) :
    reSearch lit bad (c :: rest) = reSearch lit bad rest := by
  rw [reSearch_cons, h]

theorem reSearch_cons_some (lit : Str) (bad c : Char) (rest r : Str)
    (h : tryAt lit bad (c :: rest) = some r) :
    reSearch lit bad (c :: rest) = some r := by
  rw [reSearch_cons, h]

theorem reSearch_append_skip (x : Char) (lit' : Str) (bad : Char)
    (pre l : Str) (hx : x ∉ pre) :
    reSearch (x :: lit') bad (pre ++ l) = reSearch (x :: lit') bad l := by
  induction pre with
  | nil => rfl
  | cons c t ih =>
    have hxc : (x == c) = false := by
      simp only [beq_eq_false_iff_ne, ne_eq]
      intro h
      exact hx (h ▸ List.mem_cons_self c t)
    have hnone : tryAt (x :: lit') bad (c :: (t ++ l)) = none := by
      have hp : (x :: lit').isPrefixOf (c :: (t ++ l)) = false := by
        simp [List.isPrefixOf, hxc]
      unfold tryAt
      rw [hp]
    have ht : x ∉ t := fun hm => hx (List.mem_cons_of_mem _ hm)
    calc reSearch (x :: lit') bad ((c :: t) ++ l)
        = reSearch (x :: lit') bad (t ++ l) :=
          reSearch_cons_none (x :: lit') bad c (t ++ l) hnone
      _ = reSearch (x :: lit') bad l := ih ht

theorem reSearch_here (x : Char) (lit' : Str) (bad : Char) (l : Str)
    (hcap : (l.takeWhile fun c => c ≠ bad) ≠ []) :
    reSearch (x :: lit') bad ((x :: lit') ++ l)
      = some (l.takeWhile fun c => c ≠ bad) := by
  have hpre : (x :: lit').isPrefixOf (x :: (lit' ++ l)) = true :=
    isPrefixOf_self_append (x :: lit') l
  have hdrop : List.drop (x :: lit').length (x :: (lit' ++ l)) = l :=
    List.drop_left (x :: lit') l
  have htry : tryAt (x :: lit') bad (x :: (lit' ++ l))
      = some (l.takeWhile fun c => c ≠ bad) := by
    unfold tryAt
    rw [hpre, hdrop]
    obtain ⟨c, cs, hcs⟩ : ∃ c cs, (l.takeWhile fun c => c ≠ bad) = c :: cs := by
      cases h : l.takeWhile fun c => c ≠ bad with
      | nil => exact absurd h hcap
      | cons c cs => exact ⟨c, cs, rfl⟩
    rw [hcs]
  exact reSearch_cons_some (x :: lit') bad x (lit' ++ l) _ htry

theorem dl_cache_hit (env : CallEnv) (link mediaType : Str)
    (format_id title : Option Str)
    (h : env.existsBefore (dlPath (videoIdOf link)
      (if mediaType = strL "audio" then strL "mp3" else strL "mp4")) = true) :
    download_with_yt_dlp env link mediaType format_id title
      = ⟨some (dlPath (videoIdOf link)
            (if mediaType = strL "audio" then strL "mp3" else strL "mp4")),
          [], env.cookieFile.isNone, [],
          dlPath (videoIdOf link)
            (if mediaType = strL "audio" then strL "mp3" else strL "mp4")⟩ := by
  simp only [download_with_yt_dlp, h, if_true]

theorem dl_precheckPath (env : CallEnv) (link mediaType : Str)
    (format_id title : Option Str) :
    (download_with_yt_dlp env link mediaType format_id title).precheckPath
      = dlPath (videoIdOf link)
          (if mediaType = strL "audio" then strL "mp3" else strL "mp4") := by
  simp only [download_with_yt_dlp]
  repeat' split
  all_goals rfl

theorem dl_audio_ret (env : CallEnv) (link : Str)
    (format_id title : Option Str) (p : Str)
    (h : (download_with_yt_dlp env link (strL "audio") format_id title).ret
      = some p) :
    p = dlPath (videoIdOf link) (strL "mp3") := by
  by_cases hex : env.existsBefore (dlPath (videoIdOf link) (strL "mp3")) = true
  · have hex2 : env.existsBefore (dlPath (videoIdOf link)
        (if strL "audio" = strL "audio" then strL "mp3" else strL "mp4"))
        = true := by simpa using hex
    rw [dl_cache_hit env link (strL "audio") format_id title hex2] at h
    simp at h
    exact h.symm
  · have hex' : env.existsBefore (dlPath (videoIdOf link) (strL "mp3"))
        = false := by simpa using hex
    simp [download_with_yt_dlp, hex'] at h
    cases hc : env.extract
        (dlOpts env.cookieFile (strL "audio") (videoIdOf link) format_id title)
        link with
    | error e =>
      rw [hc] at h
      simp at h
    | ok info =>
      rw [hc] at h
      by_cases hea : env.existsAfter (dlPath (videoIdOf link) (strL "mp3")) = true
      · simp [hea] at h
        exact h.symm
      · have hea' : env.existsAfter (dlPath (videoIdOf link) (strL "mp3"))
            = false := by simpa using hea
        simp [hea'] at h

theorem dl_calls_shape (env : CallEnv) (link mediaType : Str)
    (format_id title : Option Str) :
    (download_with_yt_dlp env link mediaType format_id title).calls = [] ∨
    (download_with_yt_dlp env link mediaType format_id title).calls
      = [dlOpts env.cookieFile mediaType (videoIdOf link)
          format_id title] := by
  simp only [download_with_yt_dlp]
  repeat' split
  all_goals first | exact Or.inl rfl | exact Or.inr rfl

theorem dl_error_out (env : CallEnv) (link mediaType : Str)
    (format_id title : Option Str) (e : Str)
    (hex : env.existsBefore (dlPath (videoIdOf link)
      (if mediaType = strL "audio" then strL "mp3" else strL "mp4")) = false)
    (hc : env.extract (dlOpts env.cookieFile mediaType (videoIdOf link)
      format_id title) link = Except.error e) :
    download_with_yt_dlp env link mediaType format_id title
      = ⟨none,
          [dlOpts env.cookieFile mediaType (videoIdOf link) format_id title],
          env.cookieFile.isNone, [dlErrMsg mediaType e],
          dlPath (videoIdOf link)
            (if mediaType = strL "audio" then strL "mp3" else strL "mp4")⟩ := by
  simp only [download_with_yt_dlp, hex, Bool.false_eq_true, if_false, hc]

theorem dl_ret_path (env : CallEnv) (link mediaType : Str)
    (format_id title : Option Str) (p : Str)
    (h : (download_with_yt_dlp env link mediaType format_id title).ret
      = some p) :
    ∃ e2, p = dlPath (videoIdOf link) e2 := by
  revert h
  simp only [download_with_yt_dlp]
  repeat' split
  all_goals intro h
  all_goals first
    | exact ⟨_, (Option.some.inj h).symm⟩
    | simp at h

theorem pySliceTo_sublist (n : Int) (l : List α) :
    List.Sublist (pySliceTo n l) l := by
  unfold pySliceTo
  split
  · exact List.take_sublist _ _
  · exact List.take_sublist _ _

theorem formatsLoop_eq_filter (link : Str) (fs : List Fmt) :
    formatsLoop link fs = (fs.filter dashFilter).map (projectFmt link) := by
  induction fs with
  | nil => rfl
  | cons f fs ih =>
    by_cases h : dashFilter f = true
    · simp [formatsLoop, h, List.filter_cons, ih]
    · have h' : dashFilter f = false := by
        simp only [Bool.not_eq_true] at h
        exact h
      simp [formatsLoop, h', List.filter_cons, ih]

/-! ## Claim theorems -/

/-- Claim C3: the duration-to-seconds conversion used by `details` is a pure
function of the duration string mapping "None" (and an absent duration) to 0,
"45" to 45, "3:07" to 187, "1:02:03" to 3723 and "1:00:00:00" to 86400, and
`details` returns this value as its duration-in-seconds component. -/
theorem C3_duration_to_seconds (r : SearchResult) :
    (details r).2.2.1 = details_duration_sec r.duration ∧
    details_duration_sec none = 0 ∧
    details_duration_sec (some (strL "None")) = 0 ∧
    details_duration_sec (some (strL "45")) = 45 ∧
    details_duration_sec (some (strL "3:07")) = 187 ∧
    details_duration_sec (some (strL "1:02:03")) = 3723 ∧
    details_duration_sec (some (strL "1:00:00:00")) = 86400 :=
  ⟨rfl, by decide, by decide, by decide, by decide, by decide, by decide⟩

/-- Claim C4: `extract_video_id` returns the capture of the first matching
pattern in the fixed order watch, short, embed, legacy `/v/` (in particular
it extracts the embedded identifier from a canonical watch URL), returns
`None` when no pattern matches, and the manual fallback
`link.split('v=')[-1].split('&')[0]` never raises: both Python indexings are
defined for every input string. -/
theorem C4_extract_video_id (url id : Str) :
    (id ≠ [] → '&' ∉ id →
      extract_video_id (strL "https://www.youtube.com/watch?v=" ++ id)
        = some id) ∧
    (∀ r, reSearch patWatch '&' url = some r →
      extract_video_id url = some r) ∧
    (reSearch patWatch '&' url = none →
      ∀ r, reSearch patShort '?' url = some r →
        extract_video_id url = some r) ∧
    (reSearch patWatch '&' url = none → reSearch patShort '?' url = none →
      ∀ r, reSearch patEmbed '/' url = some r →
        extract_video_id url = some r) ∧
    (reSearch patWatch '&' url = none → reSearch patShort '?' url = none →
      reSearch patEmbed '/' url = none →
      ∀ r, reSearch patV '/' url = some r →
        extract_video_id url = some r) ∧
    (reSearch patWatch '&' url = none → reSearch patShort '?' url = none →
      reSearch patEmbed '/' url = none → reSearch patV '/' url = none →
      extract_video_id url = none) ∧
    manualFallbackChecked url = some (manualFallback url) ∧
    extract_video_id (strL "https://youtu.be/dQw4w9WgXcQ?si=ab")
      = some (strL "dQw4w9WgXcQ") ∧
    extract_video_id (strL "https://www.youtube.com/embed/dQw4w9WgXcQ")
      = some (strL "dQw4w9WgXcQ") ∧
    extract_video_id (strL "https://www.youtube.com/v/dQw4w9WgXcQ")
      = some (strL "dQw4w9WgXcQ") ∧
    extract_video_id (strL "https://example.com/a") = none := by
  refine ⟨?_, ?_, ?_, ?_, ?_, ?_, ?_,
    by decide, by decide, by decide, by decide⟩
  · intro hne hmem
    have hsplit : strL "https://www.youtube.com/watch?v=" ++ id
        = strL "https://www." ++ (patWatch ++ id) := by
      rw [← List.append_assoc]; rfl
    have hy : 'y' ∉ strL "https://www." := by decide
    have hpw : patWatch = 'y' :: strL "outube.com/watch?v=" := rfl
    have htw : (id.takeWhile fun c => c ≠ '&') = id := by
      refine List.takeWhile_eq_self_iff.mpr ?_
      intro x hx
      simp only [decide_eq_true_eq]
      intro hx'
      exact hmem (hx' ▸ hx)
    have hcap : (id.takeWhile fun c => c ≠ '&') ≠ [] := by
      rw [htw]; exact hne
    have h2 := reSearch_here 'y' (strL "outube.com/watch?v=") '&' id hcap
    have h1 : reSearch patWatch '&'
        (strL "https://www.youtube.com/watch?v=" ++ id) = some id := by
      rw [hsplit, hpw,
        reSearch_append_skip 'y' (strL "outube.com/watch?v=") '&'
          (strL "https://www.") _ hy, h2, htw]
    simp [extract_video_id, h1]
  · intro r h
    simp [extract_video_id, h]
  · intro h1 r h
    simp [extract_video_id, h1, h]
  · intro h1 h2 r h
    simp [extract_video_id, h1, h2, h]
  · intro h1 h2 h3 r h
    simp [extract_video_id, h1, h2, h3, h]
  · intro h1 h2 h3 h4
    simp [extract_video_id, h1, h2, h3, h4]
  · have hsne : splitVEqL url ≠ [] := by simp [splitVEqL]
    obtain ⟨x, hx⟩ :=
      Option.isSome_iff_exists.mp (List.getLast?_isSome.mpr hsne)
    have hD : (splitVEqL url).getLastD [] = x := by
      rw [List.getLastD_eq_getLast? [] _, hx]; rfl
    simp [manualFallbackChecked, manualFallback, hx, hD, splitCharL]

/-- Witness for C4 at a concrete identifier and URL. -/
theorem C4_witness :
    extract_video_id (strL "https://www.youtube.com/watch?v=" ++ strL "abc")
      = some (strL "abc") :=
  (C4_extract_video_id [] (strL "abc")).1 (by decide) (by decide)

/-- Claim C1 (amended): both playback requests attempt the stream probe
first; a probed stream URL is returned and no download is attempted; on a
failed probe, the download is attempted exactly once; when both fail,
`YouTubeAPI.video` reports the explicit reason string
"Failed to download video", while `YouTubeAPI.download` with `video=True`
returns `(None, False)` — a null with no reason string. -/
theorem C1_stream_then_download (streamEnv dlEnv : CallEnv) (link0 : Str)
    (videoid : Bool) (format_id title : Option Str) :
    (∀ u, (get_stream_url streamEnv
        (ampStrip (if videoid then base ++ link0 else link0))
        (strL "video")).ret = some u →
      video streamEnv dlEnv link0 videoid
        = ⟨(1, u), get_stream_url streamEnv
            (ampStrip (if videoid then base ++ link0 else link0))
            (strL "video"), none⟩) ∧
    (∀ p, (get_stream_url streamEnv
        (ampStrip (if videoid then base ++ link0 else link0))
        (strL "video")).ret = none →
      (download_video dlEnv
        (ampStrip (if videoid then base ++ link0 else link0))).ret = some p →
      video streamEnv dlEnv link0 videoid
        = ⟨(1, p), get_stream_url streamEnv
            (ampStrip (if videoid then base ++ link0 else link0))
            (strL "video"),
           some (download_video dlEnv
             (ampStrip (if videoid then base ++ link0 else link0)))⟩) ∧
    ((get_stream_url streamEnv
        (ampStrip (if videoid then base ++ link0 else link0))
        (strL "video")).ret = none →
      (download_video dlEnv
        (ampStrip (if videoid then base ++ link0 else link0))).ret = none →
      video streamEnv dlEnv link0 videoid
        = ⟨(0, strL "Failed to download video"), get_stream_url streamEnv
            (ampStrip (if videoid then base ++ link0 else link0))
            (strL "video"),
           some (download_video dlEnv
             (ampStrip (if videoid then base ++ link0 else link0)))⟩) ∧
    (∀ u, (get_stream_url streamEnv
        (if videoid then base ++ link0 else link0) (strL "video")).ret
        = some u →
      download streamEnv dlEnv link0 true videoid false false format_id title
        = ⟨(some u, false), some (get_stream_url streamEnv
            (if videoid then base ++ link0 else link0) (strL "video")),
           none, none⟩) ∧
    (∀ p, (get_stream_url streamEnv
        (if videoid then base ++ link0 else link0) (strL "video")).ret
        = none →
      (download_with_yt_dlp dlEnv (if videoid then base ++ link0 else link0)
        (strL "video") format_id title).ret = some p →
      download streamEnv dlEnv link0 true videoid false false format_id title
        = ⟨(some p, true), some (get_stream_url streamEnv
            (if videoid then base ++ link0 else link0) (strL "video")),
           some (strL "video"),
           some (download_with_yt_dlp dlEnv
             (if videoid then base ++ link0 else link0)
             (strL "video") format_id title)⟩) ∧
    ((get_stream_url streamEnv
        (if videoid then base ++ link0 else link0) (strL "video")).ret
        = none →
      (download_with_yt_dlp dlEnv (if videoid then base ++ link0 else link0)
        (strL "video") format_id title).ret = none →
      download streamEnv dlEnv link0 true videoid false false format_id title
        = ⟨(none, false), some (get_stream_url streamEnv
            (if videoid then base ++ link0 else link0) (strL "video")),
           some (strL "video"),
           some (download_with_yt_dlp dlEnv
             (if videoid then base ++ link0 else link0)
             (strL "video") format_id title)⟩) := by
  refine ⟨?_, ?_, ?_, ?_, ?_, ?_⟩
  · intro u hu
    simp only [video, hu]
  · intro p hu hp
    simp only [video, hu, hp]
  · intro hu hp
    simp only [video, hu, hp]
  · intro u hu
    simp only [download, Bool.or_false, Bool.false_or, if_neg, hu]
    simp
  · intro p hu hp
    simp only [download, Bool.or_false, Bool.false_or, hu, hp]
    simp [hp]
  · intro hu hp
    simp only [download, Bool.or_false, Bool.false_or, hu, hp]
    simp [hp]

/-- Counterexample to C1 as stated: with the stream probe and the download
both failing, `YouTubeAPI.download` with `video=True` returns
`(None, False)` — a null with no explanation, not an explicit failure
reason string. -/
theorem C1_counterexample :
    (download envFailC1 envFailC1 (strL "https://youtu.be/abc")
        true false false false none none).result = (none, false) ∧
    ((download envFailC1 envFailC1 (strL "https://youtu.be/abc")
        true false false false none none).stream.map StreamOut.ret)
      = some none ∧
    ((download envFailC1 envFailC1 (strL "https://youtu.be/abc")
        true false false false none none).dl.map DlOut.ret) = some none := by
  decide

/-- Witness for C1: a successful stream probe short-circuits `video`. -/
theorem C1_witness :
    video envStreamC1 envStreamC1 (strL "abc") true
      = ⟨(1, strL "http://u"), get_stream_url envStreamC1
          (ampStrip (if true then base ++ strL "abc" else strL "abc"))
          (strL "video"), none⟩ :=
  (C1_stream_then_download envStreamC1 envStreamC1 (strL "abc") true
    none none).1 (strL "http://u") (by decide)

/-- Claim C2 (amended): the pre-download cache check probes
`downloads/<id>.mp3` for an audio request and the hard-coded
`downloads/<id>.mp4` otherwise (not the extractor-reported container); a hit
returns that path with no extraction call.  A second call after a successful
download therefore returns the same path with no second extraction call for
audio requests always, and for other requests exactly when the first call's
returned file carries the hard-coded `mp4` name. -/
theorem C2_cache (env env2 : CallEnv) (link mediaType : Str)
    (format_id title format_id2 title2 : Option Str) (p : Str) :
    (download_with_yt_dlp env link mediaType format_id title).precheckPath
      = dlPath (videoIdOf link)
          (if mediaType = strL "audio" then strL "mp3" else strL "mp4") ∧
    (env.existsBefore (dlPath (videoIdOf link)
        (if mediaType = strL "audio" then strL "mp3" else strL "mp4"))
        = true →
      (download_with_yt_dlp env link mediaType format_id title).ret
        = some (dlPath (videoIdOf link)
            (if mediaType = strL "audio" then strL "mp3" else strL "mp4")) ∧
      (download_with_yt_dlp env link mediaType format_id title).calls = []) ∧
    (mediaType = strL "audio" →
      (download_with_yt_dlp env link mediaType format_id title).ret = some p →
      p = dlPath (videoIdOf link) (strL "mp3")) ∧
    (mediaType = strL "audio" →
      (download_with_yt_dlp env link mediaType format_id title).ret = some p →
      env2.existsBefore p = true →
      (download_with_yt_dlp env2 link mediaType format_id2 title2).ret
        = some p ∧
      (download_with_yt_dlp env2 link mediaType format_id2 title2).calls
        = []) ∧
    ((download_with_yt_dlp env link mediaType format_id title).ret = some p →
      p = dlPath (videoIdOf link)
        (if mediaType = strL "audio" then strL "mp3" else strL "mp4") →
      env2.existsBefore p = true →
      (download_with_yt_dlp env2 link mediaType format_id2 title2).ret
        = some p ∧
      (download_with_yt_dlp env2 link mediaType format_id2 title2).calls
        = []) := by
  have hit : ∀ (e3 : CallEnv) (f3 t3 : Option Str),
      e3.existsBefore (dlPath (videoIdOf link)
        (if mediaType = strL "audio" then strL "mp3" else strL "mp4"))
        = true →
      (download_with_yt_dlp e3 link mediaType f3 t3).ret
        = some (dlPath (videoIdOf link)
            (if mediaType = strL "audio" then strL "mp3" else strL "mp4")) ∧
      (download_with_yt_dlp e3 link mediaType f3 t3).calls = [] := by
    intro e3 f3 t3 h3
    rw [dl_cache_hit e3 link mediaType f3 t3 h3]
    exact ⟨rfl, rfl⟩
  refine ⟨dl_precheckPath env link mediaType format_id title,
    hit env format_id title, ?_, ?_, ?_⟩
  · intro hmt hp
    subst hmt
    exact dl_audio_ret env link format_id title p hp
  · intro hmt hp h2
    subst hmt
    have hpe := dl_audio_ret env link format_id title p hp
    subst hpe
    have h2' : env2.existsBefore (dlPath (videoIdOf link)
        (if strL "audio" = strL "audio" then strL "mp3" else strL "mp4"))
        = true := by simpa using h2
    have := hit env2 format_id2 title2 h2'
    simpa using this
  · intro _ hpe h2
    subst hpe
    exact hit env2 format_id2 title2 h2

/-- Counterexample to C2 as stated: the filesystem holds exactly
`downloads/abc.webm`, the file a previous successful video download (whose
extractor reported the `webm` container) produced and returned; by the
claim the next call must return it with no extraction call, but the code
probes the hard-coded `downloads/abc.mp4` name, misses, and invokes the
extraction service again. -/
theorem C2_counterexample :
    envC2.existsBefore (dlPath (strL "abc") (strL "webm")) = true ∧
    (download_with_yt_dlp envC2 (strL "https://youtu.be/abc")
        (strL "video") none none).ret
      = some (dlPath (strL "abc") (strL "webm")) ∧
    (download_with_yt_dlp envC2 (strL "https://youtu.be/abc")
        (strL "video") none none).calls.length = 1 ∧
    (download_with_yt_dlp envC2 (strL "https://youtu.be/abc")
        (strL "video") none none).precheckPath
      = dlPath (strL "abc") (strL "mp4") := by
  decide

/-- Witness for C2: a cached `downloads/abc.mp3` is returned immediately
with no extraction call. -/
theorem C2_witness :
    (download_with_yt_dlp envC2hit (strL "https://youtu.be/abc")
        (strL "audio") none none).ret
      = some (dlPath (strL "abc") (strL "mp3")) ∧
    (download_with_yt_dlp envC2hit (strL "https://youtu.be/abc")
        (strL "audio") none none).calls = [] := by
  have h := (C2_cache envC2hit envC2hit (strL "https://youtu.be/abc")
    (strL "audio") none none none none
    (dlPath (strL "abc") (strL "mp3"))).2.1 (by decide)
  have he : dlPath (videoIdOf (strL "https://youtu.be/abc"))
      (if strL "audio" = strL "audio" then strL "mp3" else strL "mp4")
      = dlPath (strL "abc") (strL "mp3") := by decide
  rw [he] at h
  exact h

/-- Claim C5: the extraction invokers never propagate an exception raised
by the extraction call: when the yt-dlp invocation of `download_with_yt_dlp`
raises, the result is `None` and the failure reason is logged, and likewise
for `get_stream_url`. -/
theorem C5_exceptions_swallowed (env : CallEnv) (link mediaType : Str)
    (format_id title : Option Str) (e : Str) (opts : YdlOpts) :
    (opts ∈ (download_with_yt_dlp env link mediaType format_id title).calls →
      env.extract opts link = Except.error e →
      (download_with_yt_dlp env link mediaType format_id title).ret = none ∧
      (download_with_yt_dlp env link mediaType format_id title).errors
        = [dlErrMsg mediaType e]) ∧
    (env.extract (streamOpts env.cookieFile mediaType) link
        = Except.error e →
      (get_stream_url env link mediaType).ret = none ∧
      (get_stream_url env link mediaType).errors
        = [strL "Failed to get stream URL: " ++ e]) := by
  constructor
  · intro hmem hx
    have hop : opts = dlOpts env.cookieFile mediaType (videoIdOf link)
        format_id title := by
      rcases dl_calls_shape env link mediaType format_id title with
        hnil | hone
      · rw [hnil] at hmem
        simp at hmem
      · rw [hone] at hmem
        simpa using hmem
    subst hop
    by_cases hex : env.existsBefore (dlPath (videoIdOf link)
        (if mediaType = strL "audio" then strL "mp3" else strL "mp4")) = true
    · rw [dl_cache_hit env link mediaType format_id title hex] at hmem
      simp at hmem
    · have hex' : env.existsBefore (dlPath (videoIdOf link)
          (if mediaType = strL "audio" then strL "mp3" else strL "mp4"))
          = false := by simpa using hex
      rw [dl_error_out env link mediaType format_id title e hex' hx]
      exact ⟨rfl, rfl⟩
  · intro hx
    simp [get_stream_url, hx]

/-- Witness for C5 at an always-raising extraction service. -/
theorem C5_witness :
    (get_stream_url envErrC5 (strL "L") (strL "video")).ret = none ∧
    (get_stream_url envErrC5 (strL "L") (strL "video")).errors
      = [strL "Failed to get stream URL: " ++ strL "boom"] :=
  (C5_exceptions_swallowed envErrC5 (strL "L") (strL "video") none none
    (strL "boom") (streamOpts envErrC5.cookieFile (strL "video"))).2 rfl

/-- Claim C6 (amended): with no cookie file, playlist enumeration and format
listing return empty results with no extraction call and no logged warning,
and the file-size check returns `None` with no extraction call and a logged
warning; none of them raises. -/
theorem C6_missing_credentials (env : CallEnv) (link0 : Str) (limit : Int)
    (user_id : Int) (videoid : Bool) (h : env.cookieFile = none) :
    playlist env link0 limit user_id videoid = ⟨[], [], false, []⟩ ∧
    formats env link0 videoid
      = ⟨([], ampStrip (if videoid then base ++ link0 else link0)),
          [], false, []⟩ ∧
    check_file_size env link0 = ⟨none, [], true, []⟩ := by
  refine ⟨?_, ?_, ?_⟩ <;> simp [playlist, formats, check_file_size, h]

/-- Counterexample to C6 as stated: with no cookie file, playlist
enumeration and format listing log no warning at all (only the size check
does). -/
theorem C6_counterexample :
    (playlist envNoCookie (strL "L") 5 1 false).warned = false ∧
    (formats envNoCookie (strL "L") false).warned = false ∧
    (check_file_size envNoCookie (strL "L")).warned = true := by
  decide

/-- Witness for C6 at a concrete cookieless environment. -/
theorem C6_witness :
    playlist envNoCookie (strL "L") 5 1 false = ⟨[], [], false, []⟩ :=
  (C6_missing_credentials envNoCookie (strL "L") 5 1 false rfl).1

/-- Claim C7: a successful format listing returns exactly the extractor's
entries whose format label (lower-cased) does not contain "dash", each
projected to its label, file size, format id, container extension, note and
the originating link, in their original order. -/
theorem C7_formats (env : CallEnv) (link0 : Str) (videoid : Bool)
    (cf : Str) (info : Info)
    (hc : env.cookieFile = some cf)
    (hx : env.extract (formatsOpts cf)
      (ampStrip (if videoid then base ++ link0 else link0))
      = Except.ok info) :
    formats env link0 videoid
      = ⟨((info.formats.filter dashFilter).map
            (projectFmt (ampStrip (if videoid then base ++ link0 else link0))),
          ampStrip (if videoid then base ++ link0 else link0)),
         [formatsOpts cf], false, []⟩ ∧
    (∀ f, dashFilter f
        = !(strContainsSub (strL "dash") (toLowerStr (f.format.getD [])))) := by
  constructor
  · simp only [formats, hc, hx, formatsLoop_eq_filter]
  · intro f
    rfl

/-- Witness for C7: the upper-case "DASH" storyboard entry is dropped, the
regular entry is kept with its reported fields. -/
theorem C7_witness :
    formats envFmts (strL "L") false
      = ⟨([projectFmt (strL "L") fmtGood], strL "L"),
          [formatsOpts (strL "c.txt")], false, []⟩ := by
  have h := (C7_formats envFmts (strL "L") false (strL "c.txt")
    { formats := [fmtDash, fmtGood] } rfl rfl).1
  rw [h]
  decide

/-- Claim C8 (amended): playlist enumeration ignores the requesting user
identity; for a nonnegative limit it returns at most `limit` ids, taken in
order from the flat listing (the listing is requested with the flat,
non-recursive mode); and it returns an empty list on a missing credential
or an extraction exception, never raising. -/
theorem C8_playlist (env : CallEnv) (link0 : Str) (limit : Int)
    (user_id user_id2 : Int) (videoid : Bool) (cf e : Str) (info : Info) :
    playlist env link0 limit user_id videoid
      = playlist env link0 limit user_id2 videoid ∧
    (0 ≤ limit →
      ((playlist env link0 limit user_id videoid).result).length
        ≤ limit.toNat) ∧
    (env.cookieFile = some cf →
      env.extract (playlistOpts cf)
        (ampStrip (if videoid then listbase ++ link0 else link0))
        = Except.ok info →
      (playlist env link0 limit user_id videoid).result
        = (pySliceTo limit info.entries).filterMap Entry.id ∧
      List.Sublist ((playlist env link0 limit user_id videoid).result)
        (info.entries.filterMap Entry.id) ∧
      ∀ o ∈ (playlist env link0 limit user_id videoid).calls,
        o.extract_flat = true) ∧
    (env.cookieFile = none →
      playlist env link0 limit user_id videoid = ⟨[], [], false, []⟩) ∧
    (env.cookieFile = some cf →
      env.extract (playlistOpts cf)
        (ampStrip (if videoid then listbase ++ link0 else link0))
        = Except.error e →
      (playlist env link0 limit user_id videoid).result = []) := by
  refine ⟨rfl, ?_, ?_, ?_, ?_⟩
  · intro hl
    cases hcf : env.cookieFile with
    | none => simp [playlist, hcf]
    | some cf2 =>
      cases hx : env.extract (playlistOpts cf2)
          (ampStrip (if videoid then listbase ++ link0 else link0)) with
      | error e2 => simp [playlist, hcf, hx]
      | ok info2 =>
        simp only [playlist, hcf, hx]
        calc ((pySliceTo limit info2.entries).filterMap Entry.id).length
            ≤ (pySliceTo limit info2.entries).length :=
              List.length_filterMap_le _ _
          _ ≤ limit.toNat := by
              simp only [pySliceTo, if_pos hl]
              exact List.length_take_le _ _
  · intro hcf hx
    refine ⟨by simp [playlist, hcf, hx], ?_, ?_⟩
    · simp only [playlist, hcf, hx]
      exact (pySliceTo_sublist limit info.entries).filterMap Entry.id
    · simp only [playlist, hcf, hx]
      intro o ho
      simp only [List.mem_singleton] at ho
      subst ho
      rfl
  · intro hcf
    simp [playlist, hcf]
  · intro hcf hx
    simp [playlist, hcf, hx]

/-- Counterexample to C8 as stated: with the Python slice semantics of
`entries[:limit]`, the negative limit `-1` on a two-entry playlist yields
one id, which is not "at most `limit`" ids. -/
theorem C8_counterexample :
    (playlist envPl (strL "L") (-1) 7 false).result = [strL "a"] ∧
    ¬ (((playlist envPl (strL "L") (-1) 7 false).result.length : Int)
        ≤ -1) := by
  decide

/-- Witness for C8 at a nonnegative limit on a two-entry playlist. -/
theorem C8_witness :
    ((playlist envPl (strL "L") 1 7 false).result).length
      ≤ (1 : Int).toNat :=
  (C8_playlist envPl (strL "L") 1 7 8 false (strL "c.txt") (strL "e")
    {}).2.1 (by decide)

/-- Claim C9: when an explicit format id and title are both supplied, the
extraction is invoked with the title-derived output template (and the
explicit format id), while the pre-download cache probe and any returned
path use only the id-derived `downloads/<video-id>.<ext>` name — the
title-derived file is never consulted by the cache-hit check. -/
theorem C9_title_cache_exempt (env : CallEnv) (link mediaType f t : Str)
    (hf : f ≠ []) (ht : t ≠ []) :
    (∀ o ∈ (download_with_yt_dlp env link mediaType (some f)
        (some t)).calls,
      o.outtmpl = some (strL "downloads/" ++ t ++
        (if mediaType = strL "audio" then strL ".%(ext)s" else [])) ∧
      o.format = some f) ∧
    (download_with_yt_dlp env link mediaType (some f) (some t)).precheckPath
      = dlPath (videoIdOf link)
          (if mediaType = strL "audio" then strL "mp3" else strL "mp4") ∧
    (∀ p, (download_with_yt_dlp env link mediaType (some f) (some t)).ret
        = some p →
      ∃ e2, p = dlPath (videoIdOf link) e2) := by
  have hov : dlOpts env.cookieFile mediaType (videoIdOf link) (some f)
      (some t)
      = { format := some f,
          outtmpl := some (strL "downloads/" ++ t ++
            (if mediaType = strL "audio" then strL ".%(ext)s" else [])),
          quiet := true, no_warnings := true, geo_bypass := true,
          nocheckcertificate := true,
          cookiefile := env.cookieFile,
          postprocessors := if mediaType = strL "audio" then [mp3PP]
            else [] } := by
    have htr : (truthy (some f) && truthy (some t)) = true := by
      simp [truthy, List.isEmpty_iff, hf, ht]
    simp only [dlOpts, htr, if_true]
    rfl
  refine ⟨?_, dl_precheckPath env link mediaType (some f) (some t), ?_⟩
  · intro o ho
    have hoo : o = dlOpts env.cookieFile mediaType (videoIdOf link)
        (some f) (some t) := by
      rcases dl_calls_shape env link mediaType (some f) (some t) with
        hnil | hone
      · rw [hnil] at ho
        simp at ho
      · rw [hone] at ho
        simpa using ho
    subst hoo
    rw [hov]
    exact ⟨rfl, rfl⟩
  · intro p hp
    exact dl_ret_path env link mediaType (some f) (some t) p hp

/-- Witness for C9: an explicit-title audio download probes the id-derived
mp3 cache name while its extraction call writes to the title-derived
template. -/
theorem C9_witness :
    (download_with_yt_dlp envC9 (strL "https://youtu.be/abc")
        (strL "audio") (some (strL "137")) (some (strL "My Song"))).precheckPath
      = dlPath (videoIdOf (strL "https://youtu.be/abc"))
          (if strL "audio" = strL "audio" then strL "mp3" else strL "mp4") ∧
    ((download_with_yt_dlp envC9 (strL "https://youtu.be/abc")
        (strL "audio") (some (strL "137")) (some (strL "My Song"))).calls.map
      YdlOpts.outtmpl) = [some (strL "downloads/My Song.%(ext)s")] :=
  ⟨(C9_title_cache_exempt envC9 (strL "https://youtu.be/abc")
      (strL "audio") (strL "137") (strL "My Song")
      (by decide) (by decide)).2.1,
   by decide⟩

/-- Claim C10: a `songvideo=True` download is handled identically to a
`songaudio` request: `download_with_yt_dlp` is invoked with media kind
"audio" (no video stream probe is made), so the mp3 audio-extraction
post-processor, the `downloads/<video-id>.mp3` cache path, and — absent an
explicit format/title override — the audio format expression are used. -/
theorem C10_songvideo_is_audio (streamEnv dlEnv : CallEnv) (link0 : Str)
    (videob videob2 songaudio : Bool) (videoid : Bool)
    (format_id title : Option Str) :
    download streamEnv dlEnv link0 videob videoid songaudio true
        format_id title
      = download streamEnv dlEnv link0 videob2 videoid true false
          format_id title ∧
    (download streamEnv dlEnv link0 videob videoid songaudio true
        format_id title).dlMedia = some (strL "audio") ∧
    (download streamEnv dlEnv link0 videob videoid songaudio true
        format_id title).stream = none ∧
    (∀ d, (download streamEnv dlEnv link0 videob videoid songaudio true
        format_id title).dl = some d →
      d.precheckPath = dlPath
        (videoIdOf (if videoid then base ++ link0 else link0))
        (strL "mp3")) ∧
    (∀ d o, (download streamEnv dlEnv link0 videob videoid songaudio true
        format_id title).dl = some d → o ∈ d.calls →
      o.postprocessors = [mp3PP] ∧
      ((truthy format_id && truthy title) = false →
        o.format = some (strL "bestaudio/best"))) := by
  refine ⟨by simp [download], by simp [download], by simp [download],
    ?_, ?_⟩
  · intro d hd
    simp only [download, Bool.or_true, if_true] at hd
    have hd2 := Option.some.inj hd
    rw [← hd2]
    have h := dl_precheckPath dlEnv (if videoid then base ++ link0 else link0)
      (strL "audio") format_id title
    simpa using h
  · intro d o hd ho
    simp only [download, Bool.or_true, if_true] at hd
    have hd2 := Option.some.inj hd
    rw [← hd2] at ho
    have hoo : o = dlOpts dlEnv.cookieFile (strL "audio")
        (videoIdOf (if videoid then base ++ link0 else link0))
        format_id title := by
      rcases dl_calls_shape dlEnv (if videoid then base ++ link0 else link0)
          (strL "audio") format_id title with hnil | hone
      · rw [hnil] at ho
        simp at ho
      · rw [hone] at ho
        simpa using ho
    subst hoo
    constructor
    · by_cases htr : (truthy format_id && truthy title) = true
      · simp [dlOpts, htr]
      · have htr' : (truthy format_id && truthy title) = false := by
          simpa using htr
        simp [dlOpts, htr']
    · intro htr'
      simp [dlOpts, htr']

/-- Witness for C10: a concrete songvideo download equals its songaudio
counterpart and uses the audio cache path. -/
theorem C10_witness :
    download envC10 envC10 (strL "v1") true false false true none none
      = download envC10 envC10 (strL "v1") false false true false none none ∧
    DlOut.precheckPath (download_with_yt_dlp envC10 (strL "v1")
        (strL "audio") none none)
      = dlPath (videoIdOf (if false then base ++ strL "v1" else strL "v1"))
          (strL "mp3") := by
  have h := C10_songvideo_is_audio envC10 envC10 (strL "v1") true false
    false false none none
  exact ⟨h.1, h.2.2.2.1
    (download_with_yt_dlp envC10 (strL "v1") (strL "audio") none none) rfl⟩

end AviaxMusic
